import Mathlib

/-!
Shallow embedding of the data-processing core of the `rn-dashboard` repository:
`src/utils/data_processor.py` (class `DataProcessor`) and
`src/components/filters.py` (class `FilterManager`).

Text is modelled as `List Char` (`Str`), so that every operation is a plain
structural recursion that the kernel can evaluate.  A pandas `DataFrame` of
survey rows is modelled as a `List` of records in row order; `NaN` cells are
modelled as `none` before cleaning.  Python's `str.lower` is modelled with
`Char.toLower` (ASCII case folding; every keyword constant in the source is
already lower-case, so the difference is immaterial for the embedded data).

pandas `Series.str.contains` compiles its argument as a regular expression
(`regex=True` is the default).  The two patterns that are fixed in the source
(`'Sem ideia|indefinido'`) are embedded directly as the disjunction of two
substring tests.  For the user-supplied search pattern we embed the fragment
of Python `re.search` consisting of literal characters and the wildcard `.`
(`reSearch`); a pattern containing any other regex metacharacter is outside
the modelled fragment and the embedded filter returns `none` for it
(conservatively covering both `re.error` on malformed patterns and regex
features that are not modelled).
-/

namespace RNDash

/-- Text as a list of characters. -/
abbrev Str := List Char

/-- Python `in` on strings: substring containment (`sub in s`). -/
def pyContains (s sub : Str) : Bool := decide (sub <:+: s)

/-- Python `str.lower` (ASCII case folding). -/
def pyLower (s : Str) : Str := s.map Char.toLower

/-- ASCII whitespace stripped by Python `str.strip`. -/
def pyIsSpace (c : Char) : Bool :=
  c = ' ' || c = '\t' || c = '\n' || c = '\x0d' || c = '\x0b' || c = '\x0c'

/-- Python `str.strip`: drop leading and trailing whitespace. -/
def pyStrip (s : Str) : Str :=
  ((s.dropWhile pyIsSpace).reverse.dropWhile pyIsSpace).reverse

/-- Python `str.split(sep)` for a one-character separator: splitting the empty
string gives `[[]]` (one empty piece), never the empty list of pieces. -/
def pySplit (sep : Char) : Str → List Str
  | [] => [[]]
  | c :: cs =>
    let r := pySplit sep cs
    if c = sep then [] :: r
    else
      match r with
      | [] => [[c]]
      | piece :: rest => (c :: piece) :: rest

/-- Python `str.title` on a single word: first character upper-cased, the
rest lower-cased. -/
def pyTitle (s : Str) : Str :=
  match s with
  | [] => []
  | c :: cs => c.toUpper :: cs.map Char.toLower

/-- Regular-expression metacharacters of Python `re` (special characters
outside a character class). -/
def reMeta : List Char :=
  ['.', '^', '$', '*', '+', '?', '\x7b', '\x7d', '[', ']', '\\', '|', '(', ')']

/-- One pattern character against one subject character, under `re.IGNORECASE`
(`case=False` in `Series.str.contains`): the wildcard `.` matches every
character except a newline; a literal matches up to case. -/
def reChar (p c : Char) : Bool :=
  if p = '.' then decide (c ≠ '\n') else decide (p.toLower = c.toLower)

/-- The pattern matches a prefix of the subject. -/
def reMatchAt : Str → Str → Bool
  | [], _ => true
  | _ :: _, [] => false
  | p :: ps, c :: cs => reChar p c && reMatchAt ps cs

/-- Python `re.search` for the modelled fragment: the pattern matches at some
position of the subject. -/
def reSearch (pat : Str) : Str → Bool
  | [] => reMatchAt pat []
  | c :: cs => reMatchAt pat (c :: cs) || reSearch pat cs

/-- A pattern is inside the modelled regex fragment: only literal characters
and the wildcard `.`. -/
def reOk (pat : Str) : Bool := pat.all (fun c => c = '.' || !reMeta.contains c)

/-- A regex-free character: a literal for which `re.search` degenerates to
substring search. -/
def reLit (c : Char) : Bool := !reMeta.contains c

/-- Case-insensitive substring containment (the spec's reading of the
`searchText` criterion). -/
def ciContains (s pat : Str) : Bool := decide (pyLower pat <:+: pyLower s)

/-- One raw CSV row as read by `pd.read_csv`, before `_clean_data`: a missing
cell (pandas `NaN`) is `none`. -/
structure RawRecord where
  id : Int
  ideia_resumo : Option Str
  apps_semelhantes : Option Str
  RN_camera : Option Str
  RN_maps : Option Str
  RN_notificacoes : Option Str
  RN_autenticacao : Option Str
  RN_pagamentos : Option Str
  Complexidade : Option Str
  Alertas_etico_legais : Option Str
deriving DecidableEq

/-- One cleaned row, after `DataProcessor._clean_data`: missing values filled
with the empty string and the two derived list columns added. -/
structure Record where
  id : Int
  ideia_resumo : Str
  apps_semelhantes : Str
  RN_camera : Str
  RN_maps : Str
  RN_notificacoes : Str
  RN_autenticacao : Str
  RN_pagamentos : Str
  Complexidade : Str
  Alertas_etico_legais : Str
  apps_semelhantes_lista : List Str
  alertas_lista : List Str
deriving DecidableEq

/-- First exclusion sentinel of `_clean_data`. -/
def sentSem : Str := "Sem ideia".data

/-- Second exclusion sentinel of `_clean_data`. -/
def sentIndef : Str := "indefinido".data

/-- The list-deriving lambda of `_clean_data`:
`[x.strip() for x in raw.split(';')] if raw else []`. -/
def splitSemicolon (raw : Str) : List Str :=
  if raw ≠ [] then (pySplit ';' raw).map pyStrip else []

/-- `fillna('')` on one row followed by the two `.apply` columns of
`_clean_data` (`apps_semelhantes_lista`, `alertas_lista`). -/
def fillRow (r : RawRecord) : Record :=
  { id := r.id
    ideia_resumo := r.ideia_resumo.getD []
    apps_semelhantes := r.apps_semelhantes.getD []
    RN_camera := r.RN_camera.getD []
    RN_maps := r.RN_maps.getD []
    RN_notificacoes := r.RN_notificacoes.getD []
    RN_autenticacao := r.RN_autenticacao.getD []
    RN_pagamentos := r.RN_pagamentos.getD []
    Complexidade := r.Complexidade.getD []
    Alertas_etico_legais := r.Alertas_etico_legais.getD []
    apps_semelhantes_lista := splitSemicolon (r.apps_semelhantes.getD [])
    alertas_lista := splitSemicolon (r.Alertas_etico_legais.getD []) }

/-- The row predicate of `self.df['ideia_resumo'].str.contains('Sem ideia|indefinido', na=False)`:
the pattern is a regex alternation, so the row matches when its summary
contains either sentinel as a substring; a missing summary yields `false`
(`na=False`). -/
def containsSentinel (r : RawRecord) : Bool :=
  match r.ideia_resumo with
  | some s => pyContains s sentSem || pyContains s sentIndef
  | none => false

/-- `DataProcessor._clean_data`: drop rows with missing summary
(`dropna(subset=['ideia_resumo'])`), drop rows whose summary contains an
exclusion sentinel, fill remaining missing values with the empty string and
derive the two list columns. -/
def _clean_data (df : List RawRecord) : List Record :=
  (((df.filter (fun r => r.ideia_resumo.isSome)).filter
      (fun r => !containsSentinel r)).map fillRow)

/-- A `DataProcessor` frame together with its column structure.  pandas
column lookup `df[col]` raises `KeyError` when the column is absent, so the
shape of the frame matters on the error paths: `pd.DataFrame()` (the failed
or empty-path load) has no columns at all; a successfully parsed
headers-only CSV has the nine base columns but `_clean_data` early-returns
on it (`if self.df.empty: return`) without ever creating the two derived
list columns; only a frame that went through the full `_clean_data` body has
`apps_semelhantes_lista` and `alertas_lista`.  `rows` is non-empty only in
that last shape, so every row value carries all fields. -/
structure PdFrame where
  hasBaseCols : Bool
  hasDerivedCols : Bool
  rows : List Record
deriving DecidableEq

/-- Outcome of a `DataProcessor` query: a value, or the pandas `KeyError`
raised by looking up an absent column. -/
inductive PdResult (α : Type) where
  | ok (val : α)
  | keyError (col : Str)
deriving DecidableEq

/-- `DataProcessor._load_data`: every `except` branch and the empty-path
branch (modelled as `none`) set `self.df = pd.DataFrame()`, a frame with no
columns; a parse that yields zero data rows gives the base columns but
`_clean_data` early-returns before deriving the list columns; otherwise
`_clean_data` runs in full. -/
def _load_data (source : Option (List RawRecord)) : PdFrame :=
  match source with
  | none => ⟨false, false, []⟩
  | some [] => ⟨true, false, []⟩
  | some rows => ⟨true, true, _clean_data rows⟩

/-- The five React Native feature columns. -/
inductive RNFeature where
  | camera
  | maps
  | notificacoes
  | autenticacao
  | pagamentos
deriving DecidableEq

/-- The `features` list used throughout `data_processor.py` and
`filters.py`, in source order. -/
def rn_features : List RNFeature :=
  [.camera, .maps, .notificacoes, .autenticacao, .pagamentos]

/-- Column lookup `row[feature]` for the five feature columns. -/
def featureValue (r : Record) : RNFeature → Str
  | .camera => r.RN_camera
  | .maps => r.RN_maps
  | .notificacoes => r.RN_notificacoes
  | .autenticacao => r.RN_autenticacao
  | .pagamentos => r.RN_pagamentos

/-- The raw column name of a feature. -/
def featureCol : RNFeature → Str
  | .camera => "RN_camera".data
  | .maps => "RN_maps".data
  | .notificacoes => "RN_notificacoes".data
  | .autenticacao => "RN_autenticacao".data
  | .pagamentos => "RN_pagamentos".data

/-- `feature.replace('RN_', '').title()`: the column name has exactly one
occurrence of `RN_`, at the front, so the replace drops the first three
characters. -/
def featureDisplay (f : RNFeature) : Str := pyTitle ((featureCol f).drop 3)

/-- The affirmative sentinel of the feature columns. -/
def simStr : Str := "Sim".data

/-- Keys of a list in first-occurrence order. -/
def firstOccKeys (xs : List Str) : List Str :=
  xs.foldl (fun acc x => if x ∈ acc then acc else acc ++ [x]) []

/-- Insertion into a count-descending list, after every entry of at least the
same count. -/
def insertDesc (p : Str × Nat) : List (Str × Nat) → List (Str × Nat)
  | [] => [p]
  | q :: qs => if p.2 ≤ q.2 then q :: insertDesc p qs else p :: q :: qs

/-- `pandas.Series.value_counts`: distinct values with their multiplicities,
sorted by count descending.  pandas leaves the order of tied counts
unspecified; the model breaks ties by first occurrence. -/
def value_counts (xs : List Str) : List (Str × Nat) :=
  (firstOccKeys xs).foldr (fun k acc => insertDesc (k, xs.count k) acc) []

/-- `DataProcessor.get_complexity_distribution`:
`self.df['Complexidade'].value_counts()`. -/
def get_complexity_distribution (df : List Record) : List (Str × Nat) :=
  value_counts (df.map (·.Complexidade))

/-- `DataProcessor.get_rn_features_usage`: for each feature column, the
display name paired with the number of rows whose value is `Sim`. -/
def get_rn_features_usage (df : List Record) : List (Str × Nat) :=
  rn_features.map (fun f =>
    (featureDisplay f, df.countP (fun r => decide (featureValue r f = simStr))))

/-- `DataProcessor.get_apps_semelhantes_count`: flatten every row's
`apps_semelhantes_lista`, count occurrences, keep the 10 most frequent. -/
def get_apps_semelhantes_count (df : List Record) : List (Str × Nat) :=
  (value_counts (df.flatMap (·.apps_semelhantes_lista))).take 10

/-- `DataProcessor.get_ethical_alerts_count`: flatten every row's
`alertas_lista`; the empty flattening returns the empty mapping, otherwise
occurrences are counted. -/
def get_ethical_alerts_count (df : List Record) : List (Str × Nat) :=
  let all_alerts := df.flatMap (·.alertas_lista)
  if all_alerts = [] then [] else value_counts all_alerts

/-- Count of affirmative feature flags of one row:
`sum(1 for feature in features if row[feature] == 'Sim')`. -/
def num_sim (r : Record) : Nat :=
  rn_features.countP (fun f => decide (featureValue r f = simStr))

/-- One output row of `get_complexity_vs_features`. -/
structure CVFRow where
  ideia : Str
  complexidade : Str
  recursos_necessarios : Nat
  tem_alertas : Bool
deriving DecidableEq

/-- `row['ideia_resumo'][:50] + '...' if len(row['ideia_resumo']) > 50 else
row['ideia_resumo']`. -/
def truncate50 (s : Str) : Str :=
  if s.length > 50 then s.take 50 ++ "...".data else s

/-- `DataProcessor.get_complexity_vs_features`: one derived row per record. -/
def get_complexity_vs_features (df : List Record) : List CVFRow :=
  df.map (fun r =>
    { ideia := truncate50 r.ideia_resumo
      complexidade := r.Complexidade
      recursos_necessarios := num_sim r
      tem_alertas := decide (r.alertas_lista.length > 0) })

/-- The ten category names, in the insertion order of the `categories` dict
of `get_categories_analysis`. -/
def categoryNames : List Str :=
  ["Redes Sociais".data, "Educação".data, "Jogos".data, "E-commerce".data,
   "Saúde/Bem-estar".data, "Entretenimento".data, "Produtividade".data,
   "Transporte/Localização".data, "Finanças".data, "Utilitários".data]

/-- The fallback category. -/
def utilitarios : Str := "Utilitários".data

/-- The `category_keywords` dict of `get_categories_analysis`, in insertion
order (Python dicts iterate in insertion order). -/
def categoryKeywords : List (Str × List Str) :=
  [("Redes Sociais".data,
    ["rede social".data, "relacionamento".data, "social".data, "comunidade".data,
     "encontros".data, "tinder".data, "cassino social".data]),
   ("Educação".data,
    ["aprendizado".data, "educação".data, "edu".data, "conhecimento".data,
     "curso".data, "estudo".data, "ensinar".data, "tutorial".data, "aula".data,
     "roadmap".data]),
   ("Jogos".data,
    ["jogo".data, "game".data, "diversão".data, "competitivo".data, "ritmo".data,
     "fases".data, "prêmios".data, "desafios".data]),
   ("E-commerce".data,
    ["mercadoria".data, "busca".data, "lojista".data, "marketplace".data,
     "cupons".data, "preços".data, "fornecedores".data]),
   ("Saúde/Bem-estar".data,
    ["saúde".data, "mental".data, "humor".data, "estresse".data, "rotina".data,
     "água".data, "medicamentos".data, "consultas".data, "treino".data,
     "dieta".data, "meditação".data, "bem-estar".data, "cuidado".data,
     "respiração".data]),
   ("Entretenimento".data,
    ["youtube".data, "evento".data, "leitura".data, "séries".data, "mangás".data,
     "música".data, "wallpapers".data]),
   ("Produtividade".data,
    ["agenda".data, "controle".data, "gestão".data, "tempo".data, "tarefas".data,
     "organização".data, "produtividade".data, "hábitos".data,
     "rotina diária".data]),
   ("Transporte/Localização".data,
    ["caronas".data, "transporte".data, "ônibus".data, "uber".data,
     "viagens".data, "entregas".data, "localização".data,
     "eventos da cidade".data]),
   ("Finanças".data,
    ["tributário".data, "estoque".data, "lucros".data, "dados de bancos".data,
     "fundos".data, "educação financeira".data, "doações".data, "pix".data])]

/-- `any(word in ideia for word in keywords)` for one `(category, keywords)`
pair against an already lower-cased summary. -/
def catMatches (p : Str × List Str) (ideia : Str) : Bool :=
  p.2.any (fun w => pyContains ideia w)

/-- The category of one summary: the inner loop of `get_categories_analysis`
lower-cases the summary, scans `category_keywords` in order, stops at the
first matching category (`break`), and falls back to `Utilitários`. -/
def categorize (summary : Str) : Str :=
  match categoryKeywords.find? (fun p => catMatches p (pyLower summary)) with
  | some p => p.1
  | none => utilitarios

/-- The initial `categories` dict: every category mapped to the empty list. -/
def emptyCats : List (Str × List Str) :=
  categoryNames.map (fun c => (c, []))

/-- `categories[cat].append(s)`. -/
def addToCat (cats : List (Str × List Str)) (cat s : Str) : List (Str × List Str) :=
  cats.map (fun p => if p.1 = cat then (p.1, p.2 ++ [s]) else p)

/-- `DataProcessor.get_categories_analysis`: every row's summary is appended
to the bucket of its category. -/
def get_categories_analysis (df : List Record) : List (Str × List Str) :=
  df.foldl (fun cats r => addToCat cats (categorize r.ideia_resumo) r.ideia_resumo)
    emptyCats

/-- `get_complexity_distribution` as called on a frame: the lookup
`self.df['Complexidade']` raises `KeyError` on the column-less frame. -/
def get_complexity_distribution_frame (df : PdFrame) :
    PdResult (List (Str × Nat)) :=
  if df.hasBaseCols then .ok (get_complexity_distribution df.rows)
  else .keyError "Complexidade".data

/-- `get_rn_features_usage` as called on a frame: the loop's first lookup
`self.df['RN_camera']` raises `KeyError` on the column-less frame. -/
def get_rn_features_usage_frame (df : PdFrame) : PdResult (List (Str × Nat)) :=
  if df.hasBaseCols then .ok (get_rn_features_usage df.rows)
  else .keyError "RN_camera".data

/-- `get_apps_semelhantes_count` as called on a frame: the lookup
`self.df['apps_semelhantes_lista']` raises `KeyError` whenever `_clean_data`
never created the derived column. -/
def get_apps_semelhantes_count_frame (df : PdFrame) :
    PdResult (List (Str × Nat)) :=
  if df.hasDerivedCols then .ok (get_apps_semelhantes_count df.rows)
  else .keyError "apps_semelhantes_lista".data

/-- `get_ethical_alerts_count` as called on a frame: the lookup
`self.df['alertas_lista']` raises `KeyError` whenever `_clean_data` never
created the derived column. -/
def get_ethical_alerts_count_frame (df : PdFrame) :
    PdResult (List (Str × Nat)) :=
  if df.hasDerivedCols then .ok (get_ethical_alerts_count df.rows)
  else .keyError "alertas_lista".data

/-- `get_complexity_vs_features` as called on a frame: it only touches
columns through `iterrows`, and the frames without full schema have no rows,
so it never raises. -/
def get_complexity_vs_features_frame (df : PdFrame) : PdResult (List CVFRow) :=
  .ok (get_complexity_vs_features df.rows)

/-- `get_categories_analysis` as called on a frame: it only touches columns
through `iterrows`, and the frames without full schema have no rows, so it
never raises. -/
def get_categories_analysis_frame (df : PdFrame) :
    PdResult (List (Str × List Str)) :=
  .ok (get_categories_analysis df.rows)

/-- The primary sidebar criteria consumed by `FilterManager.apply_filters`.
`recursos` holds the checked feature columns; the sidebar only ever puts the
five feature column names in it. -/
structure Filters where
  complexidade : Str
  recursos : List RNFeature
  com_alertas : Str
  busca_texto : Str
deriving DecidableEq

/-- The `'Todos'` option of the selectboxes. -/
def todosStr : Str := "Todos".data

/-- The `'Apenas com alertas'` option. -/
def comAlertasStr : Str := "Apenas com alertas".data

/-- The `'Apenas sem alertas'` option. -/
def semAlertasStr : Str := "Apenas sem alertas".data

/-- `FilterManager.apply_filters`: complexity equality, then one
`== 'Sim'` filter per checked feature, then alert presence on the raw
`Alertas_etico_legais` string length, then the text search.  The text search
passes `filters['busca_texto']` to `Series.str.contains(case=False,
na=False)`, i.e. compiles it as a case-insensitive regex; a non-empty pattern
outside the modelled literal-and-wildcard fragment yields `none` (Python
raises `re.error` on malformed patterns such as `(` or `+`). -/
def apply_filters (df : List Record) (f : Filters) : Option (List Record) :=
  let d1 :=
    if f.complexidade ≠ todosStr then
      df.filter (fun r => decide (r.Complexidade = f.complexidade))
    else df
  let d2 :=
    f.recursos.foldl (fun d feat =>
      d.filter (fun r => decide (featureValue r feat = simStr))) d1
  let d3 :=
    if f.com_alertas = comAlertasStr then
      d2.filter (fun r => decide (r.Alertas_etico_legais.length > 0))
    else if f.com_alertas = semAlertasStr then
      d2.filter (fun r => decide (r.Alertas_etico_legais.length = 0))
    else d2
  if f.busca_texto ≠ [] then
    if reOk f.busca_texto then
      some (d3.filter (fun r => reSearch f.busca_texto r.ideia_resumo))
    else none
  else some d3

/-- The advanced criteria consumed by `FilterManager.apply_advanced_filters`:
the feature-count slider bounds and the similar-apps selectbox. -/
structure AdvFilters where
  min_features : Nat
  max_features : Nat
  has_similar_apps : Str
deriving DecidableEq

/-- The `'Com apps semelhantes'` option. -/
def comAppsStr : Str := "Com apps semelhantes".data

/-- The `'Sem apps semelhantes'` option. -/
def semAppsStr : Str := "Sem apps semelhantes".data

/-- `FilterManager.apply_advanced_filters`: a `num_features` column is added
(each row paired with its count of `Sim` flags), rows are kept when the count
lies within the slider bounds, the similar-apps presence test is applied on
the raw `apps_semelhantes` string length, and the ephemeral column is dropped
(`drop('num_features', axis=1)`). -/
def apply_advanced_filters (df : List Record) (af : AdvFilters) : List Record :=
  let augmented := df.map (fun r => (r, num_sim r))
  let d1 := augmented.filter (fun p =>
    decide (af.min_features ≤ p.2 ∧ p.2 ≤ af.max_features))
  let d2 :=
    if af.has_similar_apps = comAppsStr then
      d1.filter (fun p => decide (p.1.apps_semelhantes.length > 0))
    else if af.has_similar_apps = semAppsStr then
      d1.filter (fun p => decide (p.1.apps_semelhantes.length = 0))
    else d1
  d2.map Prod.fst

/-- Normal form of the complexity criterion as a row predicate. -/
def complexityPred (f : Filters) (r : Record) : Bool :=
  if f.complexidade = todosStr then true
  else decide (r.Complexidade = f.complexidade)

/-- Normal form of the required-features criterion as a row predicate:
every checked feature must be affirmative. -/
def recursosPred (f : Filters) (r : Record) : Bool :=
  f.recursos.all (fun feat => decide (featureValue r feat = simStr))

/-- Normal form of the alert-presence criterion as a row predicate. -/
def alertPred (f : Filters) (r : Record) : Bool :=
  if f.com_alertas = comAlertasStr then decide (r.Alertas_etico_legais.length > 0)
  else if f.com_alertas = semAlertasStr then decide (r.Alertas_etico_legais.length = 0)
  else true

/-- Normal form of the text-search criterion as a row predicate. -/
def searchPred (f : Filters) (r : Record) : Bool :=
  if f.busca_texto = [] then true
  else reSearch f.busca_texto r.ideia_resumo

/-- Conjunction of the four primary criteria, in the nesting order in which
the sequential filters of `apply_filters` compose. -/
def filtersPred (f : Filters) (r : Record) : Bool :=
  searchPred f r && (alertPred f r && (recursosPred f r && complexityPred f r))

/-- Normal form of the feature-count slider as a row predicate. -/
def countRangePred (af : AdvFilters) (r : Record) : Bool :=
  decide (af.min_features ≤ num_sim r ∧ num_sim r ≤ af.max_features)

/-- Normal form of the similar-apps criterion as a row predicate. -/
def similarPred (af : AdvFilters) (r : Record) : Bool :=
  if af.has_similar_apps = comAppsStr then decide (r.apps_semelhantes.length > 0)
  else if af.has_similar_apps = semAppsStr then decide (r.apps_semelhantes.length = 0)
  else true

/-- The category buckets described by first-match assignment: for each
category name, the summaries of the view's rows assigned to it, in row
order. -/
def bucketsOf (view : List Record) : List (Str × List Str) :=
  categoryNames.map (fun c =>
    (c, (view.filter (fun r => decide (categorize r.ideia_resumo = c))).map
      (·.ideia_resumo)))

/-- Sample row: high complexity, camera required, one alert, a summary
containing the word `estudo`. -/
def recEstudo : Record :=
  fillRow ⟨1, some "App para organizar estudo".data, some "Anki;Notion".data,
    some "Sim".data, some "Não".data, some "Não".data, some "Não".data,
    some "Não".data, some "Alta".data,
    some "LGPD (dados pessoais/sensíveis)".data⟩

/-- Sample row whose summary is the three characters `abc`. -/
def recAbc : Record :=
  fillRow ⟨2, some "abc".data, none, some "Não".data, some "Não".data,
    some "Não".data, some "Não".data, some "Não".data, some "Baixa".data, none⟩

/-- Primary criteria selecting high complexity, camera, alerts present and
the search text `estudo`. -/
def fPrimary : Filters :=
  ⟨"Alta".data, [.camera], comAlertasStr, "estudo".data⟩

/-- The two-row sample view for the primary filters. -/
def dfPrimary : List Record := [recEstudo, recAbc]

/-- Search criteria whose text is the regex pattern `a.c`. -/
def fDot : Filters := ⟨todosStr, [], todosStr, "a.c".data⟩

/-- Sample row with one ethical/legal alert. -/
def recLgpd : Record :=
  fillRow ⟨1, some "App de caronas universitárias".data, none, some "Não".data,
    some "Não".data, some "Não".data, some "Não".data, some "Não".data,
    some "Média".data, some "LGPD (dados pessoais/sensíveis)".data⟩

/-- Sample row with no alert. -/
def recSemAlerta : Record :=
  fillRow ⟨2, some "App de notas rápidas".data, none, some "Não".data,
    some "Não".data, some "Não".data, some "Não".data, some "Não".data,
    some "Baixa".data, none⟩

/-- The two-row sample view of example scenario 3. -/
def dfAlertas : List Record := [recLgpd, recSemAlerta]

/-- Sample row with `n` affirmative feature flags, for `n = 0..5`. -/
def recCount (n : Nat) : Record :=
  fillRow ⟨Int.ofNat n, some "App genérico".data, none,
    some (if 1 ≤ n then "Sim".data else "Não".data),
    some (if 2 ≤ n then "Sim".data else "Não".data),
    some (if 3 ≤ n then "Sim".data else "Não".data),
    some (if 4 ≤ n then "Sim".data else "Não".data),
    some (if 5 ≤ n then "Sim".data else "Não".data),
    some "Média".data, none⟩

/-- The six-row sample view of example scenario 5, with feature counts
`[0, 1, 2, 3, 4, 5]`. -/
def dfCounts : List Record :=
  [recCount 0, recCount 1, recCount 2, recCount 3, recCount 4, recCount 5]

/-- The summary of example scenario 4. -/
def caronaSummary : Str :=
  "quero um app de caronas para facilitar transporte".data

/-- Sample row carrying the summary of example scenario 4. -/
def recCarona : Record :=
  fillRow ⟨1, some caronaSummary, none, some "Não".data, some "Não".data,
    some "Não".data, some "Não".data, some "Não".data, some "Média".data, none⟩

/-- The raw row of example scenario 1: its summary is the first exclusion
sentinel itself. -/
def rawSemIdeia : RawRecord :=
  ⟨1, some sentSem, none, none, none, none, none, none, none, none⟩

theorem reLit_not_dot {c : Char} (h : reLit c = true) : c ≠ '.' := by
  intro hc
  subst hc
  simp [reLit, reMeta] at h

theorem reMatchAt_lit {pat : Str} (h : ∀ c ∈ pat, reLit c = true) (s : Str) :
    reMatchAt pat s = true ↔ pyLower pat <+: pyLower s := by
  induction pat generalizing s with
  | nil => simp [reMatchAt, pyLower]
  | cons p ps ih =>
    cases s with
    | nil => simp [reMatchAt, pyLower]
    | cons c cs =>
      have hp : p ≠ '.' := reLit_not_dot (h p (List.mem_cons_self p ps))
      have hps : ∀ x ∈ ps, reLit x = true := fun x hx => h x (List.mem_cons_of_mem p hx)
      simp [reMatchAt, reChar, hp, pyLower, List.cons_prefix_cons,
        Bool.and_eq_true, decide_eq_true_eq, ih hps, pyLower]

theorem reSearch_lit {pat : Str} (h : ∀ c ∈ pat, reLit c = true) (s : Str) :
    reSearch pat s = true ↔ pyLower pat <:+: pyLower s := by
  induction s with
  | nil =>
    simp [reSearch, reMatchAt_lit h, pyLower, List.infix_nil, List.prefix_nil]
  | cons c cs ih =>
    simp only [reSearch, Bool.or_eq_true, reMatchAt_lit h, ih, pyLower,
      List.map_cons, List.infix_cons_iff]

theorem reSearch_eq_ciContains {pat : Str} (h : ∀ c ∈ pat, reLit c = true)
    (s : Str) : reSearch pat s = ciContains s pat := by
  have hiff := reSearch_lit h s
  cases hr : reSearch pat s with
  | true => exact (decide_eq_true (hiff.mp hr)).symm
  | false =>
    symm
    apply decide_eq_false
    intro hcon
    exact absurd (hiff.mpr hcon) (by simp [hr])

theorem reOk_of_lit {s : Str} (h : s.all reLit = true) : reOk s = true := by
  rw [reOk, List.all_eq_true]
  intro c hc
  have hl := (List.all_eq_true.mp h) c hc
  rw [reLit] at hl
  have hnc : c ∉ reMeta := by simpa using hl
  simp [hnc]

theorem foldl_filter_eq {α β : Type} (p : β → α → Bool) (l : List β)
    (d : List α) :
    l.foldl (fun acc x => acc.filter (p x)) d =
      d.filter (fun r => l.all (fun x => p x r)) := by
  induction l generalizing d with
  | nil => simp
  | cons x xs ih =>
    rw [List.foldl_cons, ih, List.filter_filter]
    apply List.filter_congr
    intro r _
    simp [Bool.and_comm]

theorem apply_filters_eq (df : List Record) (f : Filters) :
    apply_filters df f =
      if f.busca_texto ≠ [] ∧ reOk f.busca_texto = false then none
      else some (df.filter (fun r => filtersPred f r)) := by
  by_cases hc : f.complexidade = todosStr <;>
    by_cases ha : f.com_alertas = comAlertasStr <;>
    by_cases hb : f.com_alertas = semAlertasStr <;>
    by_cases hs : f.busca_texto = [] <;>
    by_cases hok : reOk f.busca_texto = true <;>
    simp +decide [apply_filters, foldl_filter_eq, List.filter_filter, hc, ha,
      hb, hs, hok, filtersPred, searchPred, alertPred, recursosPred,
      complexityPred]

theorem pySplit_ne_nil (sep : Char) (s : Str) : pySplit sep s ≠ [] := by
  cases s with
  | nil => simp [pySplit]
  | cons c cs =>
    rw [pySplit]
    split
    · simp
    · split <;> simp

theorem splitSemicolon_eq_nil {raw : Str} :
    splitSemicolon raw = [] ↔ raw = [] := by
  constructor
  · intro h
    by_contra hraw
    rw [splitSemicolon, if_pos hraw] at h
    exact pySplit_ne_nil ';' raw (List.map_eq_nil_iff.mp h)
  · intro h
    simp [splitSemicolon, h]

theorem num_sim_le_five (r : Record) : num_sim r ≤ 5 := by
  have h := List.countP_le_length (fun f => decide (featureValue r f = simStr))
    (l := rn_features)
  simpa [rn_features] using h

theorem adv_filters_eq (df : List Record) (af : AdvFilters) :
    apply_advanced_filters df af =
      df.filter (fun r => countRangePred af r && similarPred af r) := by
  by_cases ha : af.has_similar_apps = comAppsStr <;>
    by_cases hb : af.has_similar_apps = semAppsStr <;>
    simp +decide [apply_advanced_filters, List.filter_map, List.filter_filter,
      List.map_map, ha, hb, countRangePred, similarPred, Function.comp_def,
      Bool.and_comm]

theorem find?_eq_of_first {α : Type} (p : α → Bool) (l : List α) (i : Nat)
    (hi : i < l.length) (hp : p l[i] = true)
    (hprev : ∀ j (hj : j < i), p (l.get ⟨j, Nat.lt_trans hj hi⟩) = false) :
    l.find? p = some l[i] := by
  induction l generalizing i with
  | nil => exact absurd hi (by simp)
  | cons a t ih =>
    cases i with
    | zero =>
      rw [List.getElem_cons_zero] at hp ⊢
      exact List.find?_cons_of_pos t hp
    | succ n =>
      have h0 : p a = false := hprev 0 (Nat.succ_pos n)
      rw [List.find?_cons_of_neg t (by simp [h0]), List.getElem_cons_succ] at *
      have hn : n < t.length := by simpa using hi
      exact ih n hn hp (fun j hj => hprev (j + 1) (Nat.succ_lt_succ hj))

theorem countP_eq_one_of_nodup {α : Type} [DecidableEq α] {l : List α}
    (hl : l.Nodup) {a : α} (ha : a ∈ l) :
    l.countP (fun c => decide (c = a)) = 1 := by
  induction l with
  | nil => cases ha
  | cons b t ih =>
    rw [List.nodup_cons] at hl
    rw [List.countP_cons]
    rcases List.mem_cons.mp ha with hab | hat
    · subst hab
      have ht : t.countP (fun c => decide (c = a)) = 0 := by
        rw [List.countP_eq_zero]
        intro x hx
        simp only [decide_eq_true_eq]
        intro hxa
        exact hl.1 (hxa ▸ hx)
      simp [ht]
    · have hba : b ≠ a := fun h => hl.1 (h ▸ hat)
      simp [ih hl.2 hat, hba]

theorem flatten_insert_perm {β γ : Type} [DecidableEq β] (keys : List β)
    (hk : keys.Nodup) (b : β) (hb : b ∈ keys) (x : γ) (g : β → List γ) :
    (keys.map (fun c => if b = c then x :: g c else g c)).flatten.Perm
      (x :: (keys.map g).flatten) := by
  induction keys with
  | nil => cases hb
  | cons k ks ih =>
    rw [List.nodup_cons] at hk
    by_cases hbk : b = k
    · subst hbk
      have hnot : ∀ c ∈ ks, ¬(b = c) := fun c hc heq => hk.1 (heq ▸ hc)
      have hmap : ks.map (fun c => if b = c then x :: g c else g c) = ks.map g := by
        apply List.map_congr_left
        intro c hc
        rw [if_neg (hnot c hc)]
      simp [hmap]
    · have hbks : b ∈ ks := (List.mem_cons.mp hb).resolve_left hbk
      have ihp := ih hk.2 hbks
      simp only [List.map_cons, List.flatten_cons, if_neg hbk]
      exact (ihp.append_left (g k)).trans List.perm_middle

theorem categorize_mem_names (s : Str) : categorize s ∈ categoryNames := by
  rw [categorize]
  cases hfind : categoryKeywords.find? (fun p => catMatches p (pyLower s)) with
  | none => decide
  | some p =>
    have hp : p ∈ categoryKeywords := List.mem_of_find?_eq_some hfind
    have hall : ∀ q ∈ categoryKeywords, q.1 ∈ categoryNames := by decide
    exact hall p hp

theorem categoryNames_nodup : categoryNames.Nodup := by decide

theorem bucketsOf_append_singleton (view : List Record) (r : Record) :
    bucketsOf (view ++ [r]) =
      addToCat (bucketsOf view) (categorize r.ideia_resumo) r.ideia_resumo := by
  rw [bucketsOf, bucketsOf, addToCat, List.map_map]
  apply List.map_congr_left
  intro c _
  simp only [Function.comp_def, List.filter_append]
  by_cases hc : categorize r.ideia_resumo = c
  · rw [if_pos hc.symm]
    simp [hc]
  · rw [if_neg (fun h => hc h.symm)]
    simp [hc]

theorem gca_eq_bucketsOf (view : List Record) :
    get_categories_analysis view = bucketsOf view := by
  induction view using List.reverseRecOn with
  | nil => rfl
  | append_singleton l r ih =>
    rw [get_categories_analysis, List.foldl_append, List.foldl_cons,
      List.foldl_nil, bucketsOf_append_singleton]
    rw [get_categories_analysis] at ih
    rw [ih]

theorem bucketsOf_map_snd (view : List Record) :
    (bucketsOf view).map Prod.snd =
      categoryNames.map (fun c =>
        (view.filter (fun x => decide (categorize x.ideia_resumo = c))).map
          (·.ideia_resumo)) := by
  rw [bucketsOf, List.map_map]
  simp [Function.comp_def]

theorem buckets_flatten_perm (view : List Record) :
    ((bucketsOf view).map Prod.snd).flatten.Perm
      (view.map (·.ideia_resumo)) := by
  induction view with
  | nil =>
    have h0 : ((bucketsOf ([] : List Record)).map Prod.snd).flatten = [] := by
      decide
    rw [h0]
    simp
  | cons r v ih =>
    have hstep : (bucketsOf (r :: v)).map Prod.snd =
        categoryNames.map (fun c =>
          if categorize r.ideia_resumo = c then
            r.ideia_resumo ::
              (v.filter (fun x => decide (categorize x.ideia_resumo = c))).map
                (·.ideia_resumo)
          else
            (v.filter (fun x => decide (categorize x.ideia_resumo = c))).map
              (·.ideia_resumo)) := by
      rw [bucketsOf_map_snd]
      apply List.map_congr_left
      intro c _
      rw [List.filter_cons]
      by_cases hc : categorize r.ideia_resumo = c
      · rw [if_pos (by simpa using hc), if_pos hc]
        simp
      · rw [if_neg (by simpa using hc), if_neg hc]
    rw [hstep]
    have hperm := flatten_insert_perm categoryNames categoryNames_nodup
      (categorize r.ideia_resumo) (categorize_mem_names r.ideia_resumo)
      r.ideia_resumo
      (fun c =>
        (v.filter (fun x => decide (categorize x.ideia_resumo = c))).map
          (·.ideia_resumo))
    have hv : (bucketsOf v).map Prod.snd =
        categoryNames.map (fun c =>
          (v.filter (fun x => decide (categorize x.ideia_resumo = c))).map
            (·.ideia_resumo)) := bucketsOf_map_snd v
    rw [List.map_cons]
    exact hperm.trans (List.Perm.cons r.ideia_resumo (hv ▸ ih))

/-- C1: for every view, `get_categories_analysis` produces exactly the ten
fixed buckets in order; each bucket holds exactly the summaries of the rows
assigned to its category; the buckets partition the view (their union is a
permutation of the view's summaries, and each row's summary lies in exactly
one bucket); a summary matching no keyword list falls back to `Utilitários`;
and assignment is first-match-wins over the fixed priority order of
`categoryKeywords`. -/
theorem categoryAssignment_partition (view : List Record) :
    ((get_categories_analysis view).map Prod.fst = categoryNames) ∧
    (∀ c b, (c, b) ∈ get_categories_analysis view →
      b = (view.filter (fun r => decide (categorize r.ideia_resumo = c))).map
        (·.ideia_resumo)) ∧
    ((get_categories_analysis view).map Prod.snd).flatten.Perm
      (view.map (·.ideia_resumo)) ∧
    (∀ r ∈ view,
      (get_categories_analysis view).countP
        (fun p => decide (r.ideia_resumo ∈ p.2)) = 1) ∧
    (∀ s : Str, (∀ p ∈ categoryKeywords, catMatches p (pyLower s) = false) →
      categorize s = utilitarios) ∧
    (∀ (s : Str) (i : Nat) (hi : i < categoryKeywords.length),
      catMatches categoryKeywords[i] (pyLower s) = true →
      (∀ j (hj : j < i),
        catMatches (categoryKeywords.get ⟨j, Nat.lt_trans hj hi⟩)
          (pyLower s) = false) →
      categorize s = categoryKeywords[i].1) := by
  refine ⟨?_, ?_, ?_, ?_, ?_, ?_⟩
  · rw [gca_eq_bucketsOf, bucketsOf, List.map_map]
    simp [Function.comp_def]
  · intro c b hmem
    rw [gca_eq_bucketsOf, bucketsOf] at hmem
    obtain ⟨c', _, heq⟩ := List.mem_map.mp hmem
    obtain ⟨hc, hb⟩ := Prod.mk.injEq .. ▸ heq
    exact hb.symm.trans (by rw [hc])
  · rw [gca_eq_bucketsOf]
    exact buckets_flatten_perm view
  · intro r hr
    rw [gca_eq_bucketsOf, bucketsOf, List.countP_map]
    have hcongr :
        categoryNames.countP
          ((fun p : Str × List Str => decide (r.ideia_resumo ∈ p.2)) ∘
            (fun c =>
              (c, (view.filter
                    (fun x => decide (categorize x.ideia_resumo = c))).map
                  (·.ideia_resumo)))) =
          categoryNames.countP
            (fun c => decide (c = categorize r.ideia_resumo)) := by
      apply List.countP_congr
      intro c _
      simp only [Function.comp_def, decide_eq_true_eq]
      constructor
      · intro hmem
        obtain ⟨x, hx, hxs⟩ := List.mem_map.mp hmem
        obtain ⟨_, hxc⟩ := List.mem_filter.mp hx
        rw [← hxs, ← of_decide_eq_true hxc]
      · intro hc
        exact List.mem_map.mpr ⟨r,
          List.mem_filter.mpr ⟨hr, decide_eq_true hc.symm⟩, rfl⟩
    rw [hcongr]
    exact countP_eq_one_of_nodup categoryNames_nodup
      (categorize_mem_names r.ideia_resumo)
  · intro s hall
    have hnone : categoryKeywords.find? (fun p => catMatches p (pyLower s)) = none := by
      rw [List.find?_eq_none]
      intro p hp
      simp [hall p hp]
    simp [categorize, hnone]
  · intro s i hi hmatch hprev
    have hfind := find?_eq_of_first (fun p => catMatches p (pyLower s))
      categoryKeywords i hi hmatch hprev
    simp [categorize, hfind]

/-- Witness for C1: the summary of example scenario 4 is assigned to
`Transporte/Localização` (index 7 of the priority list, no earlier category
matching), and in the one-row view it appears in exactly one bucket. -/
theorem categoryAssignment_partition_instance :
    categorize caronaSummary = "Transporte/Localização".data ∧
    (get_categories_analysis [recCarona]).countP
      (fun p => decide (caronaSummary ∈ p.2)) = 1 := by
  have h := categoryAssignment_partition [recCarona]
  constructor
  · have h6 := h.2.2.2.2.2 caronaSummary 7 (by decide) (by decide) (by decide)
    exact h6.trans (by decide)
  · exact h.2.2.2.1 recCarona (by decide)

/-- C2: whenever `apply_filters` returns a view, that view is no longer than
its input and every returned row satisfies every specified primary
criterion; in particular every checked feature must equal `Sim`
(conjunction, not disjunction). -/
theorem apply_filters_conjunction_sound (df : List Record) (f : Filters)
    (res : List Record) (h : apply_filters df f = some res) :
    res.length ≤ df.length ∧
    ∀ r ∈ res,
      (f.complexidade ≠ todosStr → r.Complexidade = f.complexidade) ∧
      (∀ feat ∈ f.recursos, featureValue r feat = simStr) ∧
      (f.com_alertas = comAlertasStr → r.Alertas_etico_legais.length > 0) ∧
      (f.com_alertas = semAlertasStr → r.Alertas_etico_legais.length = 0) ∧
      (f.busca_texto ≠ [] → reSearch f.busca_texto r.ideia_resumo = true) := by
  rw [apply_filters_eq] at h
  split at h
  · exact absurd h (by simp)
  · have hres : df.filter (fun r => filtersPred f r) = res := Option.some.inj h
    constructor
    · rw [← hres]
      exact List.length_filter_le _ df
    · intro r hr
      have hp : filtersPred f r = true := List.of_mem_filter (hres ▸ hr)
      simp only [filtersPred, Bool.and_eq_true] at hp
      obtain ⟨hsrch, halrt, hrec, hcplx⟩ := hp
      refine ⟨?_, ?_, ?_, ?_, ?_⟩
      · intro hne
        rw [complexityPred, if_neg hne] at hcplx
        exact of_decide_eq_true hcplx
      · intro feat hfeat
        rw [recursosPred] at hrec
        exact of_decide_eq_true (List.all_eq_true.mp hrec feat hfeat)
      · intro hcom
        rw [alertPred, if_pos hcom] at halrt
        exact of_decide_eq_true halrt
      · intro hsem
        have hne : f.com_alertas ≠ comAlertasStr := by
          rw [hsem]; decide
        rw [alertPred, if_neg hne, if_pos hsem] at halrt
        exact of_decide_eq_true halrt
      · intro hne
        rw [searchPred, if_neg hne] at hsrch
        exact hsrch

/-- Witness for C2: on the two-row sample, the filters selecting high
complexity, the camera feature, alert presence and the search text `estudo`
keep exactly the matching row, and the soundness conclusion holds there. -/
theorem apply_filters_conjunction_sound_instance :
    apply_filters dfPrimary fPrimary = some [recEstudo] ∧
    ([recEstudo].length ≤ dfPrimary.length ∧
      ∀ r ∈ [recEstudo],
        (fPrimary.complexidade ≠ todosStr →
          r.Complexidade = fPrimary.complexidade) ∧
        (∀ feat ∈ fPrimary.recursos, featureValue r feat = simStr) ∧
        (fPrimary.com_alertas = comAlertasStr →
          r.Alertas_etico_legais.length > 0) ∧
        (fPrimary.com_alertas = semAlertasStr →
          r.Alertas_etico_legais.length = 0) ∧
        (fPrimary.busca_texto ≠ [] →
          reSearch fPrimary.busca_texto r.ideia_resumo = true)) :=
  ⟨by decide,
    apply_filters_conjunction_sound dfPrimary fPrimary [recEstudo] (by decide)⟩

/-- C3: for every loaded table (pandas `read_csv` never yields an empty
string in place of a missing cell, so a present summary is non-empty),
cleaning leaves only rows whose summary is present, non-empty, and free of
both exclusion sentinels; and the one-row table whose summary is `Sem ideia`
cleans to the empty table. -/
theorem clean_data_summary_invariant (df : List RawRecord)
    (h : ∀ r ∈ df, r.ideia_resumo ≠ some []) :
    (∀ rec ∈ _clean_data df,
      rec.ideia_resumo ≠ [] ∧
        pyContains rec.ideia_resumo sentSem = false ∧
        pyContains rec.ideia_resumo sentIndef = false) ∧
    _clean_data [rawSemIdeia] = [] := by
  refine ⟨?_, by decide⟩
  intro rec hrec
  rw [_clean_data] at hrec
  obtain ⟨raw, hraw, hfill⟩ := List.mem_map.mp hrec
  obtain ⟨hraw2, hsent⟩ := List.mem_filter.mp hraw
  obtain ⟨hmem, hsome⟩ := List.mem_filter.mp hraw2
  obtain ⟨s, hs⟩ := Option.isSome_iff_exists.mp hsome
  have hsum : rec.ideia_resumo = s := by
    rw [← hfill]
    simp [fillRow, hs]
  rw [hsum]
  have hne : s ≠ [] := fun h0 => h raw hmem (by rw [hs, h0])
  have hcs : containsSentinel raw = false := by simpa using hsent
  rw [containsSentinel, hs] at hcs
  simp only [Bool.or_eq_false_iff] at hcs
  exact ⟨hne, hcs.1, hcs.2⟩

/-- Witness for C3: a two-row raw table, one row being the `Sem ideia`
sentinel row; the hypothesis and the invariant hold, and cleaning also
discards the sentinel row. -/
theorem clean_data_summary_invariant_instance :
    (∀ r ∈ [rawSemIdeia, (⟨2, some "App de treino".data, none, none, none,
        none, none, none, none, none⟩ : RawRecord)],
      r.ideia_resumo ≠ some []) ∧
    (∀ rec ∈ _clean_data [rawSemIdeia, (⟨2, some "App de treino".data, none,
        none, none, none, none, none, none, none⟩ : RawRecord)],
      rec.ideia_resumo ≠ [] ∧
        pyContains rec.ideia_resumo sentSem = false ∧
        pyContains rec.ideia_resumo sentIndef = false) :=
  ⟨by decide, (clean_data_summary_invariant _ (by decide)).1⟩

/-- C4 counterexample: the search text is passed to the regex engine, so for
the search text `a.c` the row with summary `abc` is kept even though `a.c`
is not a case-insensitive substring of `abc`. -/
theorem search_regex_not_substring :
    apply_filters [recAbc] fDot = some [recAbc] ∧
    ciContains recAbc.ideia_resumo fDot.busca_texto = false := by
  constructor <;> decide

/-- C4 amended: for a search text free of regex metacharacters (`.` `^` `$`
`*` `+` `?` braces, brackets, backslash, pipe, parentheses) the criterion
keeps exactly the rows whose summary contains the text as a case-insensitive
substring, and the empty search text keeps every row. -/
theorem search_literal_substring (df : List Record) (s : Str)
    (h : s.all reLit = true) :
    apply_filters df ⟨todosStr, [], todosStr, s⟩ =
      some (df.filter (fun r => ciContains r.ideia_resumo s)) ∧
    apply_filters df ⟨todosStr, [], todosStr, []⟩ = some df := by
  have hlit : ∀ c ∈ s, reLit c = true := List.all_eq_true.mp h
  constructor
  · rw [apply_filters_eq]
    rw [if_neg (fun hcon => by
      rw [reOk_of_lit h] at hcon
      exact absurd hcon.2 (by simp))]
    congr 1
    apply List.filter_congr
    intro r _
    by_cases hs : s = []
    · subst hs
      simp +decide [filtersPred, searchPred, alertPred, recursosPred,
        complexityPred, ciContains, pyLower]
    · simp +decide [filtersPred, searchPred, alertPred, recursosPred,
        complexityPred, hs, reSearch_eq_ciContains hlit]
  · rw [apply_filters_eq, if_neg (by simp)]
    congr 1
    apply List.filter_eq_self.mpr
    intro r _
    simp +decide [filtersPred, searchPred, alertPred, recursosPred,
      complexityPred]

/-- Witness for C4 (amended): the metacharacter-free search text `estudo`
keeps exactly the row whose summary contains it. -/
theorem search_literal_substring_instance :
    ("estudo".data.all reLit = true) ∧
    apply_filters dfPrimary ⟨todosStr, [], todosStr, "estudo".data⟩ =
      some [recEstudo] := by
  refine ⟨by decide, ?_⟩
  have h := (search_literal_substring dfPrimary "estudo".data (by decide)).1
  rw [h]
  decide

/-- C5: evaluation of the aggregation queries on the empty frames the code
actually builds.  A failed or missing-source load leaves `pd.DataFrame()`
with no columns, so `complexityDistribution`, `featureUsage`,
`similarAppsFrequency` and `alertFrequency` raise `KeyError` there instead
of returning an empty result; the two flattening queries raise even on a
successfully parsed headers-only CSV, because `_clean_data` early-returns
before creating the derived list columns.  Only the row-iterating queries,
and every query on a schema-full zero-row view (the empty FilteredView
case), return the empty or all-zero results the claim describes. -/
theorem empty_load_queries_keyerror :
    _load_data none = ⟨false, false, []⟩ ∧
    get_complexity_distribution_frame (_load_data none) =
      .keyError "Complexidade".data ∧
    get_rn_features_usage_frame (_load_data none) =
      .keyError "RN_camera".data ∧
    get_apps_semelhantes_count_frame (_load_data none) =
      .keyError "apps_semelhantes_lista".data ∧
    get_ethical_alerts_count_frame (_load_data none) =
      .keyError "alertas_lista".data ∧
    get_apps_semelhantes_count_frame (_load_data (some [])) =
      .keyError "apps_semelhantes_lista".data ∧
    get_ethical_alerts_count_frame (_load_data (some [])) =
      .keyError "alertas_lista".data ∧
    get_complexity_vs_features_frame (_load_data none) = .ok [] ∧
    get_categories_analysis_frame (_load_data none) =
      .ok (categoryNames.map (fun c => (c, []))) ∧
    (get_complexity_distribution [] = [] ∧
      get_rn_features_usage [] =
        rn_features.map (fun f => (featureDisplay f, 0)) ∧
      get_apps_semelhantes_count [] = [] ∧
      get_ethical_alerts_count [] = [] ∧
      get_complexity_vs_features [] = [] ∧
      get_categories_analysis [] = categoryNames.map (fun c => (c, []))) := by
  refine ⟨by decide, by decide, by decide, by decide, by decide, by decide,
    by decide, by decide, by decide, by decide, by decide, by decide,
    by decide, by decide, by decide⟩

/-- C6: for a fixed primary criteria set, filtering is idempotent: filtering
an already-filtered view again returns it unchanged. -/
theorem apply_filters_idempotent (df : List Record) (f : Filters)
    (res : List Record) (h : apply_filters df f = some res) :
    apply_filters res f = some res := by
  rw [apply_filters_eq] at h ⊢
  by_cases hcond : f.busca_texto ≠ [] ∧ reOk f.busca_texto = false
  · rw [if_pos hcond] at h
    exact absurd h (by simp)
  · rw [if_neg hcond] at h ⊢
    have hres : df.filter (fun r => filtersPred f r) = res := Option.some.inj h
    rw [← hres, List.filter_filter]
    congr 1
    apply List.filter_congr
    intro r _
    exact Bool.and_self (filtersPred f r)

/-- Witness for C6: on the two-row sample, re-applying the same primary
criteria to the filtered result returns it unchanged. -/
theorem apply_filters_idempotent_instance :
    apply_filters dfPrimary fPrimary = some [recEstudo] ∧
    apply_filters [recEstudo] fPrimary = some [recEstudo] :=
  ⟨by decide, apply_filters_idempotent dfPrimary fPrimary [recEstudo] (by decide)⟩

/-- C7: on a view whose derived `alertas_lista` column is consistent with its
raw alert string (as `_clean_data` makes it), the criterion
`Apenas com alertas` keeps exactly the rows whose derived alerts sequence is
non-empty, and `Apenas sem alertas` exactly those whose sequence is empty. -/
theorem alert_presence_matches_derived (df : List Record)
    (h : ∀ r ∈ df, r.alertas_lista = splitSemicolon r.Alertas_etico_legais) :
    apply_filters df ⟨todosStr, [], comAlertasStr, []⟩ =
      some (df.filter (fun r => decide (r.alertas_lista.length > 0))) ∧
    apply_filters df ⟨todosStr, [], semAlertasStr, []⟩ =
      some (df.filter (fun r => decide (r.alertas_lista.length = 0))) := by
  have key : ∀ r ∈ df, (r.alertas_lista = [] ↔ r.Alertas_etico_legais = []) := by
    intro r hr
    rw [h r hr]
    exact splitSemicolon_eq_nil
  constructor
  · rw [apply_filters_eq, if_neg (by simp)]
    congr 1
    apply List.filter_congr
    intro r hr
    simp +decide [filtersPred, searchPred, alertPred, recursosPred,
      complexityPred, List.length_pos, key r hr]
  · rw [apply_filters_eq, if_neg (by simp)]
    congr 1
    apply List.filter_congr
    intro r hr
    simp +decide [filtersPred, searchPred, alertPred, recursosPred,
      complexityPred, List.length_eq_zero, key r hr]

/-- Witness for C7 (example scenario 3): of the two rows with raw alerts
`LGPD (dados pessoais/sensíveis)` and the empty string, `Apenas com alertas`
keeps only the first, and `alertFrequency` counts the one alert once. -/
theorem alert_presence_matches_derived_instance :
    (∀ r ∈ dfAlertas, r.alertas_lista = splitSemicolon r.Alertas_etico_legais) ∧
    apply_filters dfAlertas ⟨todosStr, [], comAlertasStr, []⟩ =
      some [recLgpd] ∧
    get_ethical_alerts_count dfAlertas =
      [("LGPD (dados pessoais/sensíveis)".data, 1)] := by
  refine ⟨by decide, ?_, by decide⟩
  have h := (alert_presence_matches_derived dfAlertas (by decide)).1
  rw [h]
  decide

/-- C8: with the similar-apps criterion at `Todos`, the advanced filter with
slider bounds `[mn, mx]` (`0 ≤ mn ≤ mx ≤ 5`) keeps exactly the rows whose
count of affirmative feature flags lies in the closed interval. -/
theorem feature_count_range_exact (df : List Record) (mn mx : Nat)
    (h : mn ≤ mx ∧ mx ≤ 5) :
    apply_advanced_filters df ⟨mn, mx, todosStr⟩ =
      df.filter (fun r => decide (mn ≤ num_sim r ∧ num_sim r ≤ mx)) := by
  rw [adv_filters_eq]
  apply List.filter_congr
  intro r _
  simp +decide [countRangePred, similarPred]

/-- Witness for C8 (example scenario 5): over six rows with feature counts
`0..5`, the range `(2, 3)` keeps exactly the rows with counts 2 and 3. -/
theorem feature_count_range_exact_instance :
    (2 ≤ 3 ∧ 3 ≤ 5) ∧
    apply_advanced_filters dfCounts ⟨2, 3, todosStr⟩ =
      [recCount 2, recCount 3] :=
  ⟨⟨by decide, by decide⟩,
    (feature_count_range_exact dfCounts 2 3 ⟨by decide, by decide⟩).trans
      (by decide)⟩

/-- C9: the output of `apply_advanced_filters` consists of unmodified input
rows (a sublist of the input): it equals a plain filter of the input by the
two advanced row predicates, so the ephemeral `num_features` column never
appears in the returned rows. -/
theorem advanced_filters_schema_preserved (df : List Record) (af : AdvFilters) :
    apply_advanced_filters df af =
      df.filter (fun r => countRangePred af r && similarPred af r) ∧
    (apply_advanced_filters df af).Sublist df := by
  refine ⟨adv_filters_eq df af, ?_⟩
  rw [adv_filters_eq]
  exact List.filter_sublist df

/-- C10: the full slider range `[0, 5]` together with `Todos` for similar
apps is the identity on every view: every row's affirmative-feature count
lies in `[0, 5]`. -/
theorem advanced_filters_full_range_identity (df : List Record) :
    apply_advanced_filters df ⟨0, 5, todosStr⟩ = df := by
  rw [adv_filters_eq]
  apply List.filter_eq_self.mpr
  intro r _
  have h5 := num_sim_le_five r
  simp +decide [countRangePred, similarPred, h5]

end RNDash
